import Mathlib

/-!
# Verification of the weather-backend extraction and persistence layer

This file gives a shallow embedding, in Lean, of the core data-processing and
persistence functions of the weather-app backend:

* `parse_weather_description` (functions/utils/data_processing.py, lines 110-193),
* `extract_radar_rainfall` (lines 344-451) with its vectorized and scalar
  aggregation paths,
* `extract_observation_data` (lines 272-342) and `extract_uv_data`
  (lines 453-500),
* the `batch_save` static methods of the Firestore models
  (functions/database/models.py), which all share one control skeleton.

Python strings are modelled as Lean `String`s, with `str.split`, `in`,
`str.strip`, `int(...)` and `float(...)` re-implemented below on `List Char`
so that every definition is executable by kernel reduction.  Python floats are
modelled as `ℚ` (the float16 quantization of the NumPy radar path is not
modelled; all concrete inputs used in theorems below are exactly representable
in every float format involved, so no conclusion depends on rounding noise of
the binary formats).  Python exceptions are modelled with `Except`/`Option`:
an uncaught exception is an `.error` value that propagates to the caller.
-/

/-! ## Python string and number semantics -/

/-- `listStartsWith s p` is true when `p` is an initial segment of `s`
(the prefix test used by the split scanner below). -/
def listStartsWith : List Char → List Char → Bool
  | _, [] => true
  | [], _ :: _ => false
  | a :: as, b :: bs => a = b && listStartsWith as bs

/-- Left-to-right scanner for Python `str.split(sep)` with a non-empty
separator: at each position, either the separator matches (cut there, skip
over it) or one character is consumed.  The fuel argument makes the recursion
structural; `pySplit` always supplies enough fuel. -/
def pySplitF (sep : List Char) : Nat → List Char → List Char → List (List Char)
  | 0, s, acc => [acc.reverse ++ s]
  | fuel+1, s, acc =>
    match s with
    | [] => [acc.reverse]
    | c :: rest =>
      if listStartsWith s sep then
        acc.reverse :: pySplitF sep fuel (s.drop sep.length) []
      else
        pySplitF sep fuel rest (c :: acc)

/-- Python `s.split(sep)` for a non-empty separator `sep`: non-overlapping
left-to-right splitting, always returning at least one element. -/
def pySplit (s sep : String) : List String :=
  (pySplitF sep.data (s.data.length + 1) s.data []).map String.mk

/-- Python `sub in s` for non-empty `sub`, expressed through the same scanner
as `pySplit` (so `sub in s` holds exactly when `s.split(sub)` has a second
element, as in Python). -/
def pyContains (s sub : String) : Bool := 2 ≤ (pySplit s sub).length

/-- Python `s.strip()`: remove leading and trailing whitespace. -/
def pyStrip (s : String) : String :=
  String.mk (((s.data.dropWhile Char.isWhitespace).reverse.dropWhile
    Char.isWhitespace).reverse)

/-- Numeric value of a digit string (most significant digit first). -/
def digitsVal (ds : List Char) : ℕ := ds.foldl (fun a c => a * 10 + (c.toNat - 48)) 0

/-- A non-empty, all-digit character list. -/
def allDigits (ds : List Char) : Bool := !ds.isEmpty && ds.all Char.isDigit

/-- Value of a non-empty all-digit character list, `none` otherwise. -/
def natDigits? (ds : List Char) : Option ℕ :=
  if allDigits ds then some (digitsVal ds) else none

/-- Python `int(s)` on a decimal string: optional sign after stripping
whitespace, then digits; `none` models the `ValueError` raised otherwise.
(Exotic accepted forms — underscores, non-ASCII digits — are not modelled;
no input in this development uses them.) -/
def pyInt? (s : String) : Option ℤ :=
  match (pyStrip s).data with
  | '-' :: rest => (natDigits? rest).map (fun n => -(n : ℤ))
  | '+' :: rest => (natDigits? rest).map (fun n => (n : ℤ))
  | ds => (natDigits? ds).map (fun n => (n : ℤ))

/-- Digit-list forms accepted by Python `float` after the optional sign:
`digits`, `digits.digits`, `digits.` or `.digits` (not both parts empty). -/
def floatCore? (ds : List Char) : Option ℚ :=
  match ds.splitOn '.' with
  | [ip] => (natDigits? ip).map (fun n => (n : ℚ))
  | [ip, fp] =>
    if (ip.isEmpty || ip.all Char.isDigit) && (fp.isEmpty || fp.all Char.isDigit)
        && !(ip.isEmpty && fp.isEmpty) then
      some ((digitsVal (ip ++ fp) : ℚ) / (10 ^ fp.length : ℚ))
    else none
  | _ => none

/-- Python `float(s)` on a plain decimal string; `none` models `ValueError`.
(Exponent/`inf`/`nan` forms are not modelled; no input here uses them.) -/
def pyFloat? (s : String) : Option ℚ :=
  match (pyStrip s).data with
  | '-' :: rest => (floatCore? rest).map (fun q => -q)
  | '+' :: rest => floatCore? rest
  | ds => floatCore? ds

/-! ## `parse_weather_description` (data_processing.py lines 110-193)

The Python function splits the description on `。`, seeds the result with the
first clause as `weather`, then scans every clause through an
`if/elif` chain (rain probability / temperature / wind / humidity).  Numeric
conversions are guarded by `except (ValueError, TypeError)`; any other
exception escapes the loop and is caught by the outer handler, which returns
the empty dict.  The only such exception is the `IndexError` raised by
`speed_range.split('-')[1]` when `-` occurs in `speed_text` but not before
its first `級`. -/

/-- The result dictionary of `parse_weather_description`.  A `none` field
models an absent key.  Python's `data['Temp']` (single-point temperature) is
the `temp` field. -/
structure WeatherInfo where
  weather : Option String := none
  rainProb : Option String := none
  comfort : Option String := none
  minTemp : Option ℚ := none
  maxTemp : Option ℚ := none
  temp : Option ℚ := none
  windDirection : Option String := none
  windSpeed : Option ℤ := none
  humidity : Option String := none
deriving DecidableEq, Repr

/-- The clause branch for `'降雨機率' in part`: store the text after the
marker as `rainProb` and, when the whole sentence has more than 3 clauses,
store the 4th clause (index 3) as `comfort`. -/
def rainBranch (parts : List String) (d : WeatherInfo) (part : String) : WeatherInfo :=
  let prob := pyStrip ((pySplit part "降雨機率").getD 1 "")
  let d := { d with rainProb := some prob }
  if parts.length > 3 then { d with comfort := some (pyStrip (parts.getD 3 "")) } else d

/-- The clause branch for `'溫度攝氏' in part`: text between the marker and
the first `度`; split on `至` into min/max when present (unpacking fails
unless exactly two pieces), else a single value.  A failed `float` leaves the
corresponding field unset (`ValueError` is caught); note that `minTemp` is
assigned before the max conversion is attempted, exactly as in the source. -/
def tempBranch (d : WeatherInfo) (part : String) : WeatherInfo :=
  let tempText := (pySplit ((pySplit part "溫度攝氏").getD 1 "") "度").headD ""
  if pyContains tempText "至" then
    match pySplit tempText "至" with
    | [mn, mx] =>
      match pyFloat? (pyStrip mn) with
      | none => d
      | some mnv =>
        match pyFloat? (pyStrip mx) with
        | none => { d with minTemp := some mnv }
        | some mxv => { d with minTemp := some mnv, maxTemp := some mxv }
    | _ => d
  else
    match pyFloat? (pyStrip tempText) with
    | none => d
    | some v => { d with temp := some v }

/-- The wind branch (`'風' in part and '風速' in part`) runs two steps in
source order.  First (`windDirStep`) the text before the first `風` becomes
`windDirection` when non-empty.  Then (`windSpeedStep`) the speed: when `-`
occurs anywhere after `風速`, the text before the first `級` is split on `-`
and the piece after the first `-` is converted with `int` — if that text
contains no `-` at all, the subscript `[1]` raises an uncaught `IndexError`
(modelled as `.error ()`), aborting the whole parse; when no `-` occurs, the
speed is `int` of all digit characters before the first `級`, if any. -/
def windDirStep (d : WeatherInfo) (part : String) : WeatherInfo :=
  let pfx := (pySplit part "風").headD ""
  if pfx ≠ "" then { d with windDirection := some (pyStrip pfx) } else d

/-- The wind-speed half of the wind branch (see `windBranch`). -/
def windSpeedStep (d : WeatherInfo) (part : String) : Except Unit WeatherInfo :=
  let speedText := (pySplit part "風速").getD 1 ""
  if pyContains speedText "-" then
    let speedRange := pyStrip ((pySplit speedText "級").headD "")
    match pySplit speedRange "-" with
    | _ :: maxSpeed :: _ =>
      match pyInt? maxSpeed with
      | none => .ok d
      | some n => .ok { d with windSpeed := some n }
    | _ => .error ()
  else
    let speed := ((pySplit speedText "級").headD "").data.filter Char.isDigit
    if speed.isEmpty then .ok d
    else .ok { d with windSpeed := some (digitsVal speed : ℤ) }

def windBranch (d : WeatherInfo) (part : String) : Except Unit WeatherInfo :=
  windSpeedStep (windDirStep d part) part

/-- The clause branch for `'相對濕度' in part`: text after the marker; when it
contains `至`, keep only the portion after the first `至`. -/
def humidityBranch (d : WeatherInfo) (part : String) : WeatherInfo :=
  let hum := pyStrip ((pySplit part "相對濕度").getD 1 "")
  if pyContains hum "至" then
    { d with humidity := some (pyStrip ((pySplit hum "至").getD 1 "")) }
  else
    { d with humidity := some hum }

/-- One iteration of the clause loop: skip empty clauses, otherwise dispatch
through the `if/elif` chain in source order. -/
def parseClause (parts : List String) (d : WeatherInfo) (part : String) :
    Except Unit WeatherInfo :=
  if part = "" then .ok d
  else if pyContains part "降雨機率" then .ok (rainBranch parts d part)
  else if pyContains part "溫度攝氏" then .ok (tempBranch d part)
  else if pyContains part "風" && pyContains part "風速" then windBranch d part
  else if pyContains part "相對濕度" then .ok (humidityBranch d part)
  else .ok d

/-- The seed of the result dict: `if parts and parts[0]:` store the first
clause, trimmed, as `weather`. -/
def initInfo (parts : List String) : WeatherInfo :=
  if parts.headD "" ≠ "" then { weather := some (pyStrip (parts.headD "")) } else {}

/-- The step after the loop: when no rain-probability clause was seen and
the sentence has more than 2 clauses, read `comfort` from the 3rd clause
(index 2). -/
def applyComfortFallback (parts : List String) (d : WeatherInfo) : WeatherInfo :=
  if d.rainProb = none ∧ parts.length > 2 then
    { d with comfort := some (pyStrip (parts.getD 2 "")) }
  else d

/-- `parse_weather_description`: split on `。`, seed `weather` from the first
clause when non-empty, run the clause loop, then fall back to the 3rd clause
(index 2) for `comfort` when no rain-probability clause was seen.  An
uncaught exception in the loop lands in the outer handler, which returns the
empty dict. -/
def parse_weather_description (description : String) : WeatherInfo :=
  let parts := pySplit description "。"
  match parts.foldlM (parseClause parts) (initInfo parts) with
  | .error _ => {}
  | .ok d => applyComfortFallback parts d

/-! ## `extract_radar_rainfall` (data_processing.py lines 344-451)

The function reads `cwa_data['cwaopendata']['dataset']`, the content string
`dataset['contents']['content']` and `dataset['datasetInfo']['parameterSet']`
with mandatory subscripts (a missing key raises `KeyError`, logged and
re-raised by the outer handler), then reads the five grid parameters with
`params.get(key, default)` — a missing grid parameter is silently replaced by
its default (118.0 / 20.0 / 0.0125 / 441 / 561) and processing continues.

The comma-separated content string is modelled as the list of its parsed
numeric values (`List ℚ`); the claims treated here only concern well-formed
grid content, and tokenization is shared by both aggregation paths.

Aggregation first tries the NumPy vectorized path (`numpyAggregate`): values
`≤ -99.0` are overwritten with `0.0`, the array is reshaped (failing — hence
falling back — when the length is not `dim_y * dim_x`), cropped to multiples
of 4, and each 4×4 block is averaged over all 16 cells.  On failure it falls
back to the scalar nested-loop path (`scalarAggregate`): per block, cells in
bounds whose raw value is `> -99.0` are collected and averaged over the
number collected, `0.0` if none.  Both round to 2 decimals with Python
`round`, i.e. round-half-to-even (`round2` below; the binary-float
representation noise of `round` on `float` is not modelled). -/

/-- Round-half-to-even to an integer, the tie rule of Python `round`. -/
def roundHalfEven (q : ℚ) : ℤ :=
  let f : ℤ := ⌊q⌋
  let r : ℚ := q - f
  if r < 1/2 then f
  else if 1/2 < r then f + 1
  else if f % 2 = 0 then f else f + 1

/-- Python `round(q, 2)` on an exact value: round half to even at 2 decimals. -/
def round2 (q : ℚ) : ℚ := (roundHalfEven (q * 100) : ℚ) / 100

/-- The 16 cells of the 4×4 block at block coordinates `(x, y)` of a
row-major `dimx`-wide grid, in row-major order (out-of-range reads yield `0`;
all reads are in range whenever `data` has length `dim_y * dim_x`,
which both callers below ensure for every index they use). -/
def blockCells (dimx : ℕ) (data : List ℚ) (x y : ℕ) : List ℚ :=
  (List.range 4).flatMap (fun yo =>
    (List.range 4).map (fun xo => data.getD ((y * 4 + yo) * dimx + (x * 4 + xo)) 0))

/-- The NumPy vectorized aggregation path: zero out values `≤ -99.0`, reshape
to `(dim_y, dim_x)` (`none` models the reshape exception when the length does
not match, which sends the source to the scalar fallback), crop to multiples
of 4 and take the plain mean of every 4×4 block — all 16 cells count toward
the divisor. -/
def numpyAggregate (dimx dimy : ℕ) (data : List ℚ) : Option (List ℚ) :=
  if data.length = dimy * dimx then
    let newx := dimx / 4
    let newy := dimy / 4
    let zeroed := data.map (fun v => if v ≤ -99 then 0 else v)
    some ((List.range (newy * newx)).map (fun i =>
      round2 ((blockCells dimx zeroed (i % newx) (i / newx)).sum / 16)))
  else none

/-- The scalar nested-loop fallback path: per 4×4 block, collect the in-bounds
cells whose raw value is `> -99.0` and average over the number collected
(`0.0` when none), rounding each cell to 2 decimals. -/
def scalarAggregate (dimx dimy : ℕ) (data : List ℚ) : List ℚ :=
  let newx := dimx / 4
  let newy := dimy / 4
  (List.range (newy * newx)).map (fun i =>
    let x := i % newx
    let y := i / newx
    let gridValues := ((List.range 4).flatMap (fun yo =>
      (List.range 4).map (fun xo => (y * 4 + yo, x * 4 + xo)))).filterMap
      (fun oyx =>
        if oyx.2 < dimx ∧ oyx.1 < dimy then
          let v := data.getD (oyx.1 * dimx + oyx.2) 0
          if -99 < v then some v else none
        else none)
    round2 (if gridValues.length = 0 then 0 else gridValues.sum / gridValues.length))

/-- `dataset['datasetInfo']['parameterSet']`: the five grid parameters, each
optional because the source reads them with `params.get(key, default)`. -/
structure ParameterSet where
  StartPointLongitude : Option ℚ := none
  StartPointLatitude : Option ℚ := none
  GridResolution : Option ℚ := none
  GridDimensionX : Option ℕ := none
  GridDimensionY : Option ℕ := none
deriving DecidableEq, Repr

/-- `cwa_data['cwaopendata']['dataset']`: `none` in a field models the absence
of the corresponding (mandatory) key chain. -/
structure RadarDataset where
  content : Option (List ℚ) := none
  parameterSet : Option ParameterSet := none
deriving DecidableEq, Repr

/-- The raw radar payload; `dataset = none` models a missing
`cwaopendata`/`dataset` key. -/
structure RadarPayload where
  dataset : Option RadarDataset := none
deriving DecidableEq, Repr

/-- The `metadata` part of the output (the wall-clock `timestamp` field,
regenerated at aggregation time, is outside the model). -/
structure RadarMetadata where
  start_lon : ℚ
  start_lat : ℚ
  res_lon : ℚ
  res_lat : ℚ
  dim_x : ℕ
  dim_y : ℕ
deriving DecidableEq, Repr

/-- The output of `extract_radar_rainfall`. -/
structure RadarOutput where
  metadata : RadarMetadata
  rainfall_grid : List ℚ
deriving DecidableEq, Repr

/-- The error raised to the caller: `KeyError` on a missing mandatory key. -/
inductive RadarError where
  | keyError
deriving DecidableEq, Repr

/-- `extract_radar_rainfall`: mandatory subscripts for the dataset, content
and parameter-set nodes; `get`-with-default for the five grid parameters;
NumPy path first, scalar fallback when it fails. -/
def extract_radar_rainfall (p : RadarPayload) : Except RadarError RadarOutput :=
  match p.dataset with
  | none => .error .keyError
  | some ds =>
    match ds.content with
    | none => .error .keyError
    | some data =>
      match ds.parameterSet with
      | none => .error .keyError
      | some params =>
        let start_lon := params.StartPointLongitude.getD 118
        let start_lat := params.StartPointLatitude.getD 20
        let res_lon := params.GridResolution.getD (1/80)
        let res_lat := res_lon
        let grid_dim_x := params.GridDimensionX.getD 441
        let grid_dim_y := params.GridDimensionY.getD 561
        let new_dim_x := grid_dim_x / 4
        let new_dim_y := grid_dim_y / 4
        let aggregated :=
          match numpyAggregate grid_dim_x grid_dim_y data with
          | some g => g
          | none => scalarAggregate grid_dim_x grid_dim_y data
        .ok ⟨⟨start_lon, start_lat, res_lon * 4, res_lat * 4, new_dim_x, new_dim_y⟩,
          aggregated⟩

/-! ## `extract_observation_data` (lines 272-342) and `extract_uv_data` (lines 453-500)

Both functions iterate over `raw_data.get('records', {}).get('Station', [])`
(modelled as the station list itself) with **no per-station exception
handler**: every failure inside the loop propagates through the outer
`except`, which logs and re-raises.  Mandatory subscripts
(`station['GeoInfo']['Coordinates']`, `station['WeatherElement']`,
`station['StationId']`, `station['StationName']`,
`station['ObsTime']['DateTime']`) are modelled as `Option` fields whose
`none` raises `.keyError`.  A station whose coordinate list has no `WGS84`
entry is skipped with `continue`.  The `ObsTime` string is carried through
verbatim (the `datetime.fromisoformat(...).timestamp()` conversion is an
external collaborator; no claim below depends on its value), and the
observation sub-fields, which the source copies with `.get(...)` chains that
default to `None` and never raise, are carried as one opaque bundle. -/

/-- Equality of `Except` values is decidable (used by theorems below that
evaluate extraction results on concrete payloads). -/
instance {ε α : Type} [DecidableEq ε] [DecidableEq α] : DecidableEq (Except ε α) := fun
  | .ok a, .ok b => decidable_of_iff (a = b) (by simp)
  | .ok _, .error _ => .isFalse (by simp)
  | .error _, .ok _ => .isFalse (by simp)
  | .error e, .error f => decidable_of_iff (e = f) (by simp)

/-- One entry of `station['GeoInfo']['Coordinates']`. -/
structure StationCoordinate where
  CoordinateName : String
  StationLatitude : ℚ
  StationLongitude : ℚ
deriving DecidableEq, Repr

/-- The error propagated by the extraction loops. -/
inductive ExtractError where
  | keyError
  | valueError
deriving DecidableEq, Repr

/-- A raw observation station.  `none` models a missing mandatory key
(`GeoInfo` also covers its inner `Coordinates`, and `ObsTime` its inner
`DateTime`, since both chains are subscripted together in the source).
`WeatherElement` is the opaque bundle of observation sub-fields copied with
never-raising `.get` chains. -/
structure ObsStation where
  GeoInfo : Option (List StationCoordinate) := none
  StationId : Option String := none
  StationName : Option String := none
  ObsTime : Option String := none
  WeatherElement : Option String := none
deriving DecidableEq, Repr

/-- One output record of `extract_observation_data`; `observations` carries
the opaque `WeatherElement` bundle and `obsTimeRaw` the verbatim
`ObsTime.DateTime` string. -/
structure ObsRecord where
  stationId : String
  stationName : String
  latitude : ℚ
  longitude : ℚ
  obsTimeRaw : String
  observations : String
deriving DecidableEq, Repr

/-- Processing of one observation station: mandatory `GeoInfo`, `continue`
(i.e. `some none`) when no `WGS84` coordinate is present, then mandatory
`WeatherElement`, `StationId`, `StationName` and `ObsTime`, in source
order. -/
def processObsStation (st : ObsStation) : Except ExtractError (Option ObsRecord) :=
  match st.GeoInfo with
  | none => .error .keyError
  | some coords =>
    match coords.find? (fun c => c.CoordinateName = "WGS84") with
    | none => .ok none
    | some coord =>
      match st.WeatherElement with
      | none => .error .keyError
      | some we =>
        match st.StationId, st.StationName, st.ObsTime with
        | some sid, some sname, some obstime =>
          .ok (some ⟨sid, sname, coord.StationLatitude, coord.StationLongitude,
            obstime, we⟩)
        | _, _, _ => .error .keyError

/-- The shared station loop of both extraction functions: process stations in
order, skip a `.ok none`, collect a `.ok (some r)`, and abort the whole call
on the first `.error` (there is no per-station handler in the source). -/
def extractLoop (f : α → Except ExtractError (Option β)) :
    List α → Except ExtractError (List β)
  | [] => .ok []
  | st :: rest =>
    match f st with
    | .error e => .error e
    | .ok none => extractLoop f rest
    | .ok (some r) => (extractLoop f rest).map (fun l => r :: l)

/-- `extract_observation_data`. -/
def extract_observation_data : List ObsStation → Except ExtractError (List ObsRecord) :=
  extractLoop processObsStation

/-- A raw UV station.  `WeatherElement = none` models a missing
`WeatherElement` key (mandatory subscript); `WeatherElement = some uv` models
a present mapping whose optional `UVIndex` entry is `uv` (read in the source
with `.get('UVIndex', '-99')`). -/
structure UVStation where
  GeoInfo : Option (List StationCoordinate) := none
  StationId : Option String := none
  StationName : Option String := none
  ObsTime : Option String := none
  WeatherElement : Option (Option String) := none
deriving DecidableEq, Repr

/-- One output record of `extract_uv_data`. -/
structure UVRecord where
  stationId : String
  stationName : String
  latitude : ℚ
  longitude : ℚ
  uvIndex : ℤ
  obsTimeRaw : String
deriving DecidableEq, Repr

/-- Processing of one UV station: `WGS84` filter, then
`uv_index = int(station['WeatherElement'].get('UVIndex', '-99'))`, then the
sentinel filter `if uv_index == -99: continue`, then the record fields. -/
def processUVStation (st : UVStation) : Except ExtractError (Option UVRecord) :=
  match st.GeoInfo with
  | none => .error .keyError
  | some coords =>
    match coords.find? (fun c => c.CoordinateName = "WGS84") with
    | none => .ok none
    | some coord =>
      match st.WeatherElement with
      | none => .error .keyError
      | some uvField =>
        match pyInt? (uvField.getD "-99") with
        | none => .error .valueError
        | some uv =>
          if uv = -99 then .ok none
          else
            match st.StationId, st.StationName, st.ObsTime with
            | some sid, some sname, some obstime =>
              .ok (some ⟨sid, sname, coord.StationLatitude, coord.StationLongitude,
                uv, obstime⟩)
            | _, _, _ => .error .keyError

/-- `extract_uv_data`. -/
def extract_uv_data : List UVStation → Except ExtractError (List UVRecord) :=
  extractLoop processUVStation

/-! ## `batch_save` (database/models.py)

All `batch_save` static methods (`ObservationData`, `ThreeHourForecast`,
`WeeklyForecast`, `UVIndexData`, `AirQualityData`, `SunriseData`) share one
skeleton, modelled once here.  Per input item the loop:

* when `circuit_open` is set, records the item as failed and continues
  (dead code in the source: `circuit_open` is only set right before `raise`);
* builds the model and stages `batch.set` — a failure here is an exception
  *before* `success_count` is incremented (`Item.buildFails`);
* on success increments `count` and `success_count`, and when
  `count >= batch_size` calls `batch.commit()` — the outcome of each commit
  call is an external event, supplied as the `commits` oracle list (entries
  beyond its end succeed).  A failing commit raises *after* the item was
  already counted as a success, and the `except` blocks then also record the
  same item as failed.  On a generic commit failure the source skips the
  `batch = db.batch(); count = 0` reset lines, so `count` stays at or above
  the batch size;
* a `ResourceExhausted`/`DeadlineExceeded` (`quota`) exception sets
  `circuit_open`, records the item as failed, and `raise`s — immediately
  leaving the loop; a generic exception records the item and continues.

After the loop, a final `batch.commit()` runs when `count > 0` and the
circuit is not open; the `stats` dict is returned.  When an exception is
raised the caller never sees `stats`; the model keeps the final internal
`stats` in the `.raised` outcome so that theorems can speak about the
accounting at the moment of the raise. -/

/-- The two exception classes distinguished by the source: the quota class
(`ResourceExhausted`, `DeadlineExceeded`) and everything else. -/
inductive PyExc where
  | quota
  | generic
deriving DecidableEq, Repr

/-- One input item, abstracted to the behaviour of building and staging it:
`none` builds and stages fine, `some e` raises `e` from the model
constructor / `batch.set`. -/
structure Item where
  buildFails : Option PyExc := none
deriving DecidableEq, Repr

/-- The `stats` accounting dict; `failed_items` keeps the 0-based indices of
the items recorded as failed (the source records identity fields and an
error string per entry). -/
structure BatchStats where
  total_attempts : ℕ
  success_count : ℕ
  failed_count : ℕ
  failed_items : List ℕ
deriving DecidableEq, Repr

/-- Record item `idx` as failed. -/
def markFailed (s : BatchStats) (idx : ℕ) : BatchStats :=
  { s with failed_count := s.failed_count + 1, failed_items := s.failed_items ++ [idx] }

/-- Increment `success_count`. -/
def bumpSuccess (s : BatchStats) : BatchStats :=
  { s with success_count := s.success_count + 1 }

/-- The mutable loop state: the circuit-breaker flag, the staged-write
counter, the remaining commit oracle and the accounting dict. -/
structure LoopState where
  circuitOpen : Bool
  count : ℕ
  commits : List (Option PyExc)
  stats : BatchStats
deriving DecidableEq, Repr

/-- Outcome of the next `batch.commit()` call: the head of the oracle, or
success when the oracle is exhausted. -/
def commitOutcome : List (Option PyExc) → Option PyExc × List (Option PyExc)
  | [] => (none, [])
  | o :: rest => (o, rest)

/-- The item loop of `batch_save`; `.error` is a raised exception escaping
the loop, carrying the loop state at that moment. -/
def batchLoop (batch_size : ℕ) : ℕ → LoopState → List Item →
    Except (PyExc × LoopState) LoopState
  | _, st, [] => .ok st
  | idx, st, item :: rest =>
    if st.circuitOpen then
      batchLoop batch_size (idx + 1) { st with stats := markFailed st.stats idx } rest
    else
      match item.buildFails with
      | some .quota =>
        .error (.quota, { st with circuitOpen := true, stats := markFailed st.stats idx })
      | some .generic =>
        batchLoop batch_size (idx + 1) { st with stats := markFailed st.stats idx } rest
      | none =>
        let st := { st with count := st.count + 1, stats := bumpSuccess st.stats }
        if batch_size ≤ st.count then
          match commitOutcome st.commits with
          | (none, rest') =>
            batchLoop batch_size (idx + 1) { st with count := 0, commits := rest' } rest
          | (some .quota, rest') =>
            .error (.quota,
              { st with circuitOpen := true, commits := rest', stats := markFailed st.stats idx })
          | (some .generic, rest') =>
            batchLoop batch_size (idx + 1)
              { st with commits := rest', stats := markFailed st.stats idx } rest
        else
          batchLoop batch_size (idx + 1) st rest

/-- The observable outcome of `batch_save`: a returned `stats` dict or a
raised exception.  The `stats` carried by `.raised` is the internal
accounting at the moment of the raise (never returned to the caller). -/
inductive BatchOutcome where
  | returned (stats : BatchStats)
  | raised (e : PyExc) (stats : BatchStats)
deriving DecidableEq, Repr

/-- The `stats` component of an outcome. -/
def BatchOutcome.stats : BatchOutcome → BatchStats
  | .returned s => s
  | .raised _ s => s

/-- `batch_save(items, batch_size)` against a store whose successive
`batch.commit()` calls behave as `commits` prescribes. -/
def batch_save (items : List Item) (batch_size : ℕ)
    (commits : List (Option PyExc)) : BatchOutcome :=
  let stats0 : BatchStats := ⟨items.length, 0, 0, []⟩
  match batchLoop batch_size 0 ⟨false, 0, commits, stats0⟩ items with
  | .error (e, st) => .raised e st.stats
  | .ok st =>
    if 0 < st.count ∧ st.circuitOpen = false then
      match commitOutcome st.commits with
      | (none, _) => .returned st.stats
      | (some e, _) => .raised e st.stats
    else .returned st.stats

/-! ## Lemmas about `batch_save` -/

/-- The item loop specialized to a run in which every `batch.commit()`
succeeds, with the staged-write counter — which cannot influence the
accounting in such a run — erased. -/
def simpleLoop : ℕ → BatchStats → List Item → Except (PyExc × BatchStats) BatchStats
  | _, s, [] => .ok s
  | idx, s, item :: rest =>
    match item.buildFails with
    | some .quota => .error (.quota, markFailed s idx)
    | some .generic => simpleLoop (idx + 1) (markFailed s idx) rest
    | none => simpleLoop (idx + 1) (bumpSuccess s) rest

/-- Add `n` to `success_count`. -/
def addSucc (s : BatchStats) (n : ℕ) : BatchStats :=
  { s with success_count := s.success_count + n }

lemma batchLoop_no_commit_fail (bs : ℕ) (items : List Item) :
    ∀ (idx c : ℕ) (s : BatchStats),
    (∀ s', simpleLoop idx s items = .ok s' →
      ∃ c', batchLoop bs idx ⟨false, c, [], s⟩ items = .ok ⟨false, c', [], s'⟩) ∧
    (∀ e s', simpleLoop idx s items = .error (e, s') →
      ∃ st, batchLoop bs idx ⟨false, c, [], s⟩ items = .error (e, st) ∧ st.stats = s') := by
  induction items with
  | nil =>
    intro idx c s
    constructor
    · intro s' h
      simp only [simpleLoop] at h
      cases h
      exact ⟨c, by simp [batchLoop]⟩
    · intro e s' h
      simp [simpleLoop] at h
  | cons item rest ih =>
    intro idx c s
    constructor
    · intro s' h
      simp only [simpleLoop] at h
      simp only [batchLoop, Bool.false_eq_true, if_false]
      match hb : item.buildFails with
      | some .quota =>
        rw [hb] at h; simp at h
      | some .generic =>
        rw [hb] at h
        exact (ih (idx + 1) c (markFailed s idx)).1 s' h
      | none =>
        rw [hb] at h
        by_cases hbs : bs ≤ c + 1
        · simpa [hbs, commitOutcome] using (ih (idx + 1) 0 (bumpSuccess s)).1 s' h
        · simpa [hbs] using (ih (idx + 1) (c + 1) (bumpSuccess s)).1 s' h
    · intro e s' h
      simp only [simpleLoop] at h
      simp only [batchLoop, Bool.false_eq_true, if_false]
      match hb : item.buildFails with
      | some .quota =>
        rw [hb] at h
        cases h
        exact ⟨_, rfl, rfl⟩
      | some .generic =>
        rw [hb] at h
        exact (ih (idx + 1) c (markFailed s idx)).2 e s' h
      | none =>
        rw [hb] at h
        by_cases hbs : bs ≤ c + 1
        · simpa [hbs, commitOutcome] using (ih (idx + 1) 0 (bumpSuccess s)).2 e s' h
        · simpa [hbs] using (ih (idx + 1) (c + 1) (bumpSuccess s)).2 e s' h

lemma batch_save_no_commit_fail (items : List Item) (bs : ℕ) :
    batch_save items bs [] =
      match simpleLoop 0 ⟨items.length, 0, 0, []⟩ items with
      | .ok s => .returned s
      | .error (e, s) => .raised e s := by
  match h : simpleLoop 0 ⟨items.length, 0, 0, []⟩ items with
  | .ok s =>
    obtain ⟨c', hc⟩ := (batchLoop_no_commit_fail bs items 0 0 _).1 s h
    simp only [batch_save, hc]
    by_cases h0 : 0 < c' <;> simp [h0, commitOutcome]
  | .error (e, s) =>
    obtain ⟨st, hst, hstats⟩ := (batchLoop_no_commit_fail bs items 0 0 _).2 e s h
    simp [batch_save, hst, hstats]

lemma simpleLoop_quota :
    ∀ (items : List Item) (k idx : ℕ) (s : BatchStats),
    k < items.length →
    (∀ it ∈ items.take k, it.buildFails = none) →
    (items.getD k ⟨none⟩).buildFails = some .quota →
    simpleLoop idx s items = .error (.quota, markFailed (addSucc s k) (idx + k)) := by
  intro items
  induction items with
  | nil => intro k idx s hk; simp at hk
  | cons item rest ih =>
    intro k idx s hk hpre hq
    match k with
    | 0 =>
      simp only [List.getD_cons_zero] at hq
      cases s
      simp [simpleLoop, hq, addSucc, markFailed]
    | k' + 1 =>
      have hhead : item.buildFails = none := by
        apply hpre
        simp [List.take_succ_cons]
      have htail := ih k' (idx + 1) (bumpSuccess s)
        (by simp only [List.length_cons] at hk; omega)
        (fun it hit => hpre it (by simp [List.take_succ_cons, hit]))
        (by simpa using hq)
      have haux : idx + 1 + k' = idx + (k' + 1) := by omega
      have hbump : addSucc (bumpSuccess s) k' = addSucc s (k' + 1) := by
        cases s
        simp only [addSucc, bumpSuccess, BatchStats.mk.injEq, and_true, true_and]
        omega
      simp only [simpleLoop, hhead]
      rw [htail, haux, hbump]

/-- Claim C1 (amended): when every item before the `k`-th (1-indexed) builds
and stages successfully, every store commit succeeds, and processing the
`k`-th item raises a quota-class error, `batch_save` raises that error with
`success_count = k - 1` but `failed_count = 1`: only item `k` itself is
recorded in `failed_items`, and the items after `k` are neither attempted
nor marked failed, because the `raise` in the quota handler leaves the loop
at once (the `circuit_open` marking branch is unreachable). -/
theorem batch_save_quota_halts_accounting (items : List Item) (bs k : ℕ)
    (hk1 : 1 ≤ k) (hk2 : k ≤ items.length)
    (hpre : ∀ it ∈ items.take (k - 1), it.buildFails = none)
    (hq : (items.getD (k - 1) ⟨none⟩).buildFails = some PyExc.quota) :
    batch_save items bs [] =
      .raised .quota ⟨items.length, k - 1, 1, [k - 1]⟩ := by
  have h := simpleLoop_quota items (k - 1) 0 ⟨items.length, 0, 0, []⟩
    (by omega) hpre hq
  rw [batch_save_no_commit_fail, h]
  simp [markFailed, addSucc]

/-- Witness for `batch_save_quota_halts_accounting` at a concrete two-item
batch whose second item raises the quota error. -/
theorem batch_save_quota_halts_accounting_witness :
    (1 ≤ 2 ∧ 2 ≤ ([⟨none⟩, ⟨some PyExc.quota⟩] : List Item).length) ∧
    batch_save [⟨none⟩, ⟨some PyExc.quota⟩] 500 [] = .raised .quota ⟨2, 1, 1, [1]⟩ :=
  ⟨⟨by decide, by decide⟩,
    batch_save_quota_halts_accounting [⟨none⟩, ⟨some PyExc.quota⟩] 500 2
      (by decide) (by decide) (by decide) (by decide)⟩

/-- Counterexample to claim C1 as stated: for `N = 3` items with a
quota-class error at item `k = 2`, the claim prescribes
`failed_count = N - (k - 1) = 2` with item 3 marked failed without a write;
the code raises with `failed_count = 1` and item 3 (index 2) is never
recorded. -/
theorem batch_save_quota_claim_counterexample :
    batch_save [⟨none⟩, ⟨some PyExc.quota⟩, ⟨none⟩] 500 [] =
      .raised .quota ⟨3, 1, 1, [1]⟩ ∧
    (batch_save [⟨none⟩, ⟨some PyExc.quota⟩, ⟨none⟩] 500 []).stats.failed_count ≠
      3 - (2 - 1) ∧
    (2 : ℕ) ∉ (batch_save [⟨none⟩, ⟨some PyExc.quota⟩, ⟨none⟩] 500 []).stats.failed_items :=
  ⟨by decide, by decide, by decide⟩

/-- The accounting dict carried by a loop result (returned or raised). -/
def exceptStats : Except (PyExc × LoopState) LoopState → BatchStats
  | .ok st => st.stats
  | .error (_, st) => st.stats

lemma batchLoop_sum_le (bs : ℕ) :
    ∀ (items : List Item) (idx : ℕ) (st : LoopState),
    (exceptStats (batchLoop bs idx st items)).success_count +
      (exceptStats (batchLoop bs idx st items)).failed_count ≤
    st.stats.success_count + st.stats.failed_count + items.length +
      st.commits.countP Option.isSome := by
  intro items
  induction items with
  | nil =>
    intro idx st
    simp [batchLoop, exceptStats]
  | cons item rest ih =>
    intro idx st
    obtain ⟨co, cnt, cms, sts⟩ := st
    cases co with
    | true =>
      have h := ih (idx + 1) ⟨true, cnt, cms, markFailed sts idx⟩
      simp only [batchLoop, if_true, markFailed, List.length_cons] at h ⊢
      omega
    | false =>
      match hb : item.buildFails with
      | some .quota =>
        simp only [batchLoop, hb, Bool.false_eq_true, if_false, exceptStats, markFailed,
          List.length_cons]
        omega
      | some .generic =>
        have h := ih (idx + 1) ⟨false, cnt, cms, markFailed sts idx⟩
        simp only [batchLoop, hb, Bool.false_eq_true, if_false, markFailed,
          List.length_cons] at h ⊢
        omega
      | none =>
        by_cases hbs : bs ≤ cnt + 1
        · match hcm : cms with
          | [] =>
            have h := ih (idx + 1) ⟨false, 0, [], bumpSuccess sts⟩
            simp only [batchLoop, hb, Bool.false_eq_true, if_false, hbs, if_true,
              commitOutcome, bumpSuccess, List.length_cons] at h ⊢
            simp only [List.countP_nil] at h ⊢
            omega
          | none :: cs =>
            have h := ih (idx + 1) ⟨false, 0, cs, bumpSuccess sts⟩
            simp only [batchLoop, hb, Bool.false_eq_true, if_false, hbs, if_true,
              commitOutcome, bumpSuccess, List.length_cons] at h ⊢
            simp only [List.countP_cons, Option.isSome_none, Bool.false_eq_true,
              if_false] at h ⊢
            omega
          | some .quota :: cs =>
            simp only [batchLoop, hb, Bool.false_eq_true, if_false, hbs, if_true,
              commitOutcome, exceptStats, markFailed, bumpSuccess, List.length_cons,
              List.countP_cons, Option.isSome_some, if_true]
            omega
          | some .generic :: cs =>
            have h := ih (idx + 1) ⟨false, cnt + 1, cs, markFailed (bumpSuccess sts) idx⟩
            simp only [batchLoop, hb, Bool.false_eq_true, if_false, hbs, if_true,
              commitOutcome, markFailed, bumpSuccess, List.length_cons,
              List.countP_cons, Option.isSome_some] at h ⊢
            omega
        · have h := ih (idx + 1) ⟨false, cnt + 1, cms, bumpSuccess sts⟩
          simp only [batchLoop, hb, Bool.false_eq_true, if_false, hbs,
            bumpSuccess, List.length_cons] at h ⊢
          omega

/-- Claim C9 (amended): for every input list, batch size and store
behaviour, `success_count + failed_count` is bounded by `total_attempts`
*plus the number of failing commit calls* — the item whose staged batch
commit raises is counted both as a success (before the commit) and as a
failure (in the handler).  With no commit failure the claimed invariant
`success_count + failed_count ≤ total_attempts` holds. -/
theorem batch_save_stats_sum_bound (items : List Item) (bs : ℕ)
    (commits : List (Option PyExc)) :
    (batch_save items bs commits).stats.success_count +
      (batch_save items bs commits).stats.failed_count ≤
    items.length + commits.countP Option.isSome := by
  have h := batchLoop_sum_le bs items 0 ⟨false, 0, commits, ⟨items.length, 0, 0, []⟩⟩
  simp only at h
  match hb : batchLoop bs 0 ⟨false, 0, commits, ⟨items.length, 0, 0, []⟩⟩ items with
  | .error (e, st) =>
    rw [hb] at h
    simp only [exceptStats] at h
    simp only [batch_save, hb, BatchOutcome.stats]
    omega
  | .ok st =>
    rw [hb] at h
    simp only [exceptStats] at h
    simp only [batch_save, hb]
    have hst : ∀ o : BatchOutcome, o.stats = st.stats →
        o.stats.success_count + o.stats.failed_count ≤
          items.length + commits.countP Option.isSome := by
      intro o ho; rw [ho]; omega
    split
    · match hcm : commitOutcome st.commits with
      | (none, _) => exact hst _ rfl
      | (some e, _) => exact hst _ rfl
    · exact hst _ rfl

/-- Counterexample to claim C9 as stated: one item, batch size 1, and a
store whose single commit raises the quota error.  The item is counted both
as success and as failure, so `success_count + failed_count = 2` exceeds
`total_attempts = 1` in the stats observable at the raise. -/
theorem batch_save_sum_counterexample :
    batch_save [⟨none⟩] 1 [some PyExc.quota] = .raised .quota ⟨1, 1, 1, [0]⟩ ∧
    ¬((batch_save [⟨none⟩] 1 [some PyExc.quota]).stats.success_count +
        (batch_save [⟨none⟩] 1 [some PyExc.quota]).stats.failed_count ≤
      ([(⟨none⟩ : Item)]).length) :=
  ⟨by decide, by decide⟩

/-! ## Theorems about `extract_radar_rainfall` -/

/-- Stated from the spec's words (§4.2, claims C2/C3), for comparison with
the code: the reference block average — the arithmetic mean of the cells of
the block whose raw value is strictly greater than `-99.0` (excluded cells
do not count toward the divisor), rounded to 2 decimals, `0.0` when every
cell is excluded. -/
def specBlockAverage (cells : List ℚ) : ℚ :=
  let valid := cells.filter (fun v => -99 < v)
  if valid.length = 0 then 0 else round2 (valid.sum / valid.length)

/-- A well-formed 4×4 radar grid: one valid cell (`8.0`) and fifteen
sentinel cells (`-999.0`). -/
def radarGrid8 : List ℚ :=
  [8, -999, -999, -999, -999, -999, -999, -999,
   -999, -999, -999, -999, -999, -999, -999, -999]

/-- Claim C2: the NumPy vectorized path and the scalar fallback path of
`extract_radar_rainfall` diverge on well-formed content containing sentinel
cells.  On `radarGrid8` the vectorized path zeroes the fifteen sentinels and
divides by all 16 cells, yielding `0.5`; the scalar reference path excludes
them from the divisor, yielding `8.0`.  (The claimed equivalence fails; the
function's own docstring presents the NumPy path as a pure performance
optimization of the fallback.) -/
theorem numpy_scalar_divergence :
    numpyAggregate 4 4 radarGrid8 = some [1/2] ∧
    scalarAggregate 4 4 radarGrid8 = [8] ∧
    (1/2 : ℚ) ≠ 8 := by
  refine ⟨?_, ?_, by norm_num⟩
  · simp [numpyAggregate, radarGrid8, blockCells, List.range_succ]
    norm_num [round2, roundHalfEven]
  · simp +decide [scalarAggregate, radarGrid8, List.range_succ]
    norm_num [round2, roundHalfEven]

/-- The parameter set used for the radar evaluation: 4×4 grid, resolution
`0.5`, origin `(121, 25)`. -/
def radarParams8 : ParameterSet :=
  ⟨some 121, some 25, some (1/2), some 4, some 4⟩

/-- The radar payload holding `radarGrid8` with all parameters present. -/
def radarPayload8 : RadarPayload :=
  ⟨some ⟨some radarGrid8, some radarParams8⟩⟩

/-- Claim C3: on a payload whose 4×4 grid has one valid cell `8.0` among
fifteen sentinels, `extract_radar_rainfall` (taking its NumPy path) returns
the cell value `0.5`, while the claimed block mean over valid cells only is
`8.0`.  The output length `(dim_x/4) * (dim_y/4) = 1` does hold. -/
theorem extract_radar_block_mean_divergence :
    extract_radar_rainfall radarPayload8 = .ok ⟨⟨121, 25, 2, 2, 1, 1⟩, [1/2]⟩ ∧
    specBlockAverage radarGrid8 = 8 ∧
    (1/2 : ℚ) ≠ 8 := by
  refine ⟨?_, ?_, by norm_num⟩
  · simp [extract_radar_rainfall, radarPayload8, radarParams8, radarGrid8,
      numpyAggregate, blockCells, List.range_succ]
    norm_num [round2, roundHalfEven]
  · simp [specBlockAverage, radarGrid8]
    norm_num [round2, roundHalfEven]

/-- A 4×4 grid of ones. -/
def radarOnes16 : List ℚ := [1, 1, 1, 1, 1, 1, 1, 1, 1, 1, 1, 1, 1, 1, 1, 1]

/-- A parameter set lacking the `StartPointLongitude` key. -/
def radarParamsNoLon : ParameterSet :=
  ⟨none, some 25, some (1/2), some 4, some 4⟩

/-- Counterexample to claim C6 as stated: a payload whose parameter set
lacks `StartPointLongitude` does not raise a structural error — the call
succeeds, substituting the default `118.0` into the output metadata. -/
theorem extract_radar_missing_param_counterexample :
    extract_radar_rainfall ⟨some ⟨some radarOnes16, some radarParamsNoLon⟩⟩ =
      .ok ⟨⟨118, 25, 2, 2, 1, 1⟩, [1]⟩ ∧
    radarParamsNoLon.StartPointLongitude = none := by
  refine ⟨?_, rfl⟩
  simp [extract_radar_rainfall, radarParamsNoLon, radarOnes16,
    numpyAggregate, blockCells, List.range_succ]
  norm_num [round2, roundHalfEven]

/-- Fill every absent grid parameter with the default that
`params.get(key, default)` substitutes in the source. -/
def fillDefaults (p : ParameterSet) : ParameterSet :=
  ⟨some (p.StartPointLongitude.getD 118), some (p.StartPointLatitude.getD 20),
   some (p.GridResolution.getD (1/80)), some (p.GridDimensionX.getD 441),
   some (p.GridDimensionY.getD 561)⟩

/-- Claim C6 (amended): a missing *structural* key — the
`cwaopendata`/`dataset` chain, `contents.content`, or
`datasetInfo.parameterSet` — raises `KeyError` with no output; but a missing
key *inside* the parameter set never raises: extraction behaves exactly as
if the missing parameters were present with their default values
(118.0 / 20.0 / 0.0125 / 441 / 561). -/
theorem extract_radar_structural_vs_param_defaults :
    extract_radar_rainfall ⟨none⟩ = .error .keyError ∧
    (∀ ps : Option ParameterSet,
      extract_radar_rainfall ⟨some ⟨none, ps⟩⟩ = .error .keyError) ∧
    (∀ data : List ℚ,
      extract_radar_rainfall ⟨some ⟨some data, none⟩⟩ = .error .keyError) ∧
    (∀ (data : List ℚ) (params : ParameterSet),
      extract_radar_rainfall ⟨some ⟨some data, some params⟩⟩ =
        extract_radar_rainfall ⟨some ⟨some data, some (fillDefaults params)⟩⟩) := by
  refine ⟨rfl, fun ps => rfl, fun data => rfl, fun data params => ?_⟩
  obtain ⟨a, b, c, d, e⟩ := params
  cases a <;> cases b <;> cases c <;> cases d <;> cases e <;> rfl

/-! ## Theorems about the extraction loops -/

lemma extractLoop_skip {α β : Type} (f : α → Except ExtractError (Option β))
    (s : α) (h : f s = .ok none) :
    ∀ (pre post : List α),
    extractLoop f (pre ++ s :: post) = extractLoop f (pre ++ post) := by
  intro pre
  induction pre with
  | nil => intro post; simp [extractLoop, h]
  | cons p pre' ih =>
    intro post
    simp only [List.cons_append, extractLoop]
    cases hp : f p with
    | error e => simp
    | ok o =>
      cases o with
      | none => simpa using ih post
      | some r => simp [ih post]

lemma extractLoop_abort {α β : Type} (f : α → Except ExtractError (Option β))
    (s : α) (e : ExtractError) (h : f s = .error e) :
    ∀ (pre post : List α), (∀ p ∈ pre, ∃ r, f p = .ok r) →
    extractLoop f (pre ++ s :: post) = .error e := by
  intro pre
  induction pre with
  | nil => intro post _; simp [extractLoop, h]
  | cons p pre' ih =>
    intro post hpre
    obtain ⟨r, hr⟩ := hpre p (by simp)
    simp only [List.cons_append, extractLoop, hr]
    cases r with
    | none => simpa using ih post (fun q hq => hpre q (by simp [hq]))
    | some x => simp [ih post (fun q hq => hpre q (by simp [hq])), Except.map]

/-- A station with WGS84 coordinates whose mandatory `WeatherElement` key is
absent. -/
def obsStationMissingWE : ObsStation :=
  ⟨some [⟨"WGS84", 25, 121⟩], some "A1", some "S1", some "T1", none⟩

/-- A fully well-formed observation station. -/
def obsStationGood : ObsStation :=
  ⟨some [⟨"WGS84", 24, 120⟩], some "A2", some "S2", some "T2", some "obs"⟩

/-- A station whose coordinate list has no WGS84 entry. -/
def obsStationNoWGS : ObsStation :=
  ⟨some [⟨"TWD67", 23, 120⟩], some "A3", some "S3", some "T3", some "obs3"⟩

/-- Counterexample to claim C4 as stated: a payload of two stations whose
first lacks the `WeatherElement` key.  The whole call raises `KeyError` and
the well-formed sibling — which alone yields a record — produces nothing. -/
theorem extract_observation_sibling_counterexample :
    extract_observation_data [obsStationMissingWE, obsStationGood] = .error .keyError ∧
    extract_observation_data [obsStationGood] =
      .ok [⟨"A2", "S2", 24, 120, "T2", "obs"⟩] :=
  ⟨by decide, by decide⟩

/-- Claim C4 (amended): the only per-station tolerance in
`extract_observation_data` is the WGS84 filter — a station whose (present)
coordinate list has no WGS84 entry is skipped while its siblings are
processed; any station failing with a missing mandatory key (e.g.
`WeatherElement`) aborts the whole call with the propagated error and no
output, including for well-formed siblings. -/
theorem extract_observation_isolation_amended :
    (∀ (pre post : List ObsStation) (s : ObsStation)
      (coords : List StationCoordinate),
      s.GeoInfo = some coords →
      coords.find? (fun c => c.CoordinateName = "WGS84") = none →
      extract_observation_data (pre ++ s :: post) =
        extract_observation_data (pre ++ post)) ∧
    (∀ (pre post : List ObsStation) (s : ObsStation) (e : ExtractError),
      processObsStation s = .error e →
      (∀ p ∈ pre, ∃ r, processObsStation p = .ok r) →
      extract_observation_data (pre ++ s :: post) = .error e) := by
  constructor
  · intro pre post s coords hg hc
    exact extractLoop_skip _ s (by simp [processObsStation, hg, hc]) pre post
  · intro pre post s e he hpre
    exact extractLoop_abort _ s e he pre post hpre

/-- Witness for `extract_observation_isolation_amended` at concrete
two-station payloads. -/
theorem extract_observation_isolation_amended_witness :
    extract_observation_data [obsStationNoWGS, obsStationGood] =
      extract_observation_data [obsStationGood] ∧
    extract_observation_data [obsStationMissingWE, obsStationGood] =
      .error .keyError :=
  ⟨extract_observation_isolation_amended.1 [] [obsStationGood] obsStationNoWGS
      [⟨"TWD67", 23, 120⟩] rfl (by decide),
    extract_observation_isolation_amended.2 [] [obsStationGood] obsStationMissingWE
      .keyError (by decide) (by simp)⟩

/-- Claim C10: in `extract_uv_data`, a station (with a WGS84 coordinate and
a present `WeatherElement` mapping) whose `UVIndex` key is absent is
excluded from the output exactly as a station explicitly reporting `-99`
is — the missing field defaults to `'-99'` before the sentinel filter, and
either station leaves the output identical to the payload without it. -/
theorem extract_uv_missing_uvindex_excluded
    (pre post : List UVStation) (s s' : UVStation)
    (coords coords' : List StationCoordinate) (c c' : StationCoordinate)
    (hg : s.GeoInfo = some coords)
    (hc : coords.find? (fun k => k.CoordinateName = "WGS84") = some c)
    (hw : s.WeatherElement = some none)
    (hg' : s'.GeoInfo = some coords')
    (hc' : coords'.find? (fun k => k.CoordinateName = "WGS84") = some c')
    (hw' : s'.WeatherElement = some (some "-99")) :
    extract_uv_data (pre ++ s :: post) = extract_uv_data (pre ++ post) ∧
    extract_uv_data (pre ++ s' :: post) = extract_uv_data (pre ++ post) := by
  have huv : pyInt? "-99" = some (-99) := by decide
  constructor
  · exact extractLoop_skip _ s
      (by simp [processUVStation, hg, hc, hw, huv]) pre post
  · exact extractLoop_skip _ s'
      (by simp [processUVStation, hg', hc', hw', huv]) pre post

/-- A UV station with WGS84 coordinates whose `WeatherElement` mapping lacks
the `UVIndex` key. -/
def uvStationNoKey : UVStation :=
  ⟨some [⟨"WGS84", 25, 121⟩], some "U1", some "US1", some "T1", some none⟩

/-- A UV station explicitly reporting the sentinel `-99`. -/
def uvStationSentinel : UVStation :=
  ⟨some [⟨"WGS84", 26, 122⟩], some "U2", some "US2", some "T2", some (some "-99")⟩

/-- A fully well-formed UV station reporting index 5. -/
def uvStationGood : UVStation :=
  ⟨some [⟨"WGS84", 24, 120⟩], some "U3", some "US3", some "T3", some (some "5")⟩

/-- Witness for `extract_uv_missing_uvindex_excluded` at concrete
two-station payloads. -/
theorem extract_uv_missing_uvindex_excluded_witness :
    extract_uv_data [uvStationNoKey, uvStationGood] =
      extract_uv_data [uvStationGood] ∧
    extract_uv_data [uvStationSentinel, uvStationGood] =
      extract_uv_data [uvStationGood] :=
  extract_uv_missing_uvindex_excluded [] [uvStationGood] uvStationNoKey
    uvStationSentinel [⟨"WGS84", 25, 121⟩] [⟨"WGS84", 26, 122⟩]
    ⟨"WGS84", 25, 121⟩ ⟨"WGS84", 26, 122⟩
    rfl (by decide) rfl rfl (by decide) rfl

/-! ## Lemmas about `parse_weather_description` -/

/-- A clause routed to the wind branch by the `if/elif` chain: it contains
`風` and `風速` but neither earlier marker. -/
def isWindClause (part : String) : Bool :=
  !(pyContains part "降雨機率") && !(pyContains part "溫度攝氏") &&
  (pyContains part "風" && pyContains part "風速")

/-- The wind-speed abort condition: `-` occurs in the text after `風速` but
not in the (stripped) text before its first `級`, so that
`speed_range.split('-')[1]` raises an uncaught `IndexError`. -/
def windAborts (part : String) : Bool :=
  let speedText := (pySplit part "風速").getD 1 ""
  pyContains speedText "-" &&
    !(pyContains (pyStrip ((pySplit speedText "級").headD "")) "-")

/-- A clause on which the loop body raises an uncaught exception. -/
def clauseAborts (part : String) : Bool := isWindClause part && windAborts part

/-- The wind direction captured from a wind clause: the text before the
first `風`, trimmed, or nothing when the clause starts with `風`. -/
def windDirectionOf (part : String) : Option String :=
  let pfx := (pySplit part "風").headD ""
  if pfx = "" then none else some (pyStrip pfx)

/-- The wind speed captured from a wind clause (for a clause that does not
abort): with a `-` after `風速`, `int` of the piece after the first `-` of
the text before the first `級`; otherwise `int` of all digit characters of
that text; `none` when the conversion fails or no digit occurs. -/
def windSpeedOf (part : String) : Option ℤ :=
  let speedText := (pySplit part "風速").getD 1 ""
  if pyContains speedText "-" then
    pyInt? ((pySplit (pyStrip ((pySplit speedText "級").headD "")) "-").getD 1 "")
  else
    let speed := ((pySplit speedText "級").headD "").data.filter Char.isDigit
    if speed.isEmpty then none else some (digitsVal speed : ℤ)

/-- Overwrite-if-captured: the dict update discipline of the clause scan. -/
def updField {α : Type} : Option α → Option α → Option α
  | some x, _ => some x
  | none, old => old

lemma updField_none {α : Type} (v : Option α) : updField v none = v := by
  cases v <;> rfl

lemma updField_idem {α : Type} (v old : Option α) :
    updField v (updField v old) = updField v old := by
  cases v <;> rfl

lemma pyContains_empty (sub : String) : pyContains "" sub = false := rfl

lemma windSpeedStep_error_of_aborts (d : WeatherInfo) (part : String)
    (h : windAborts part = true) : windSpeedStep d part = .error () := by
  unfold windAborts at h
  simp only [Bool.and_eq_true, Bool.not_eq_true'] at h
  obtain ⟨h1, h2⟩ := h
  unfold windSpeedStep
  simp only [h1, if_true]
  split
  · rename_i a b rest heq
    simp only [pyContains, decide_eq_false_iff_not] at h2
    rw [heq] at h2
    simp at h2
  · rfl

lemma windSpeedStep_ok_of_not_aborts (d : WeatherInfo) (part : String)
    (h : windAborts part = false) : ∃ d', windSpeedStep d part = .ok d' := by
  unfold windAborts at h
  unfold windSpeedStep
  cases hcd : pyContains ((pySplit part "風速").getD 1 "") "-" with
  | false =>
    simp only [hcd, Bool.false_eq_true, if_false]
    split <;> exact ⟨_, rfl⟩
  | true =>
    simp only [hcd, Bool.true_and, Bool.not_eq_false'] at h
    simp only [hcd, if_true]
    match hm : pySplit (pyStrip ((pySplit ((pySplit part "風速").getD 1 "") "級").headD "")) "-" with
    | [] =>
      simp only [pyContains, decide_eq_true_eq] at h
      rw [hm] at h
      simp at h
    | [a] =>
      simp only [pyContains, decide_eq_true_eq] at h
      rw [hm] at h
      simp at h
    | a :: b :: rest =>
      cases hpi : pyInt? b with
      | none =>
        simp only [hpi]
        exact ⟨_, rfl⟩
      | some n =>
        simp only [hpi]
        exact ⟨_, rfl⟩

lemma windBranch_error_of_aborts (d : WeatherInfo) (part : String)
    (h : windAborts part = true) : windBranch d part = .error () :=
  windSpeedStep_error_of_aborts _ part h

lemma windBranch_ok_of_not_aborts (d : WeatherInfo) (part : String)
    (h : windAborts part = false) : ∃ d', windBranch d part = .ok d' :=
  windSpeedStep_ok_of_not_aborts _ part h

lemma windDirStep_fields (d : WeatherInfo) (part : String) :
    (windDirStep d part).windDirection = updField (windDirectionOf part) d.windDirection ∧
    (windDirStep d part).windSpeed = d.windSpeed ∧
    (windDirStep d part).rainProb = d.rainProb ∧
    (windDirStep d part).comfort = d.comfort := by
  unfold windDirStep windDirectionOf updField
  by_cases hp : (pySplit part "風").headD "" = ""
  · rw [List.headD_eq_head?] at hp
    simp [hp]
  · rw [List.headD_eq_head?] at hp
    simp [hp]

lemma windSpeedStep_fields (d : WeatherInfo) (part : String) (d' : WeatherInfo)
    (h : windSpeedStep d part = .ok d') :
    d'.windSpeed = updField (windSpeedOf part) d.windSpeed ∧
    d'.windDirection = d.windDirection ∧
    d'.rainProb = d.rainProb ∧ d'.comfort = d.comfort := by
  unfold windSpeedStep at h
  unfold windSpeedOf
  cases hcd : pyContains ((pySplit part "風速").getD 1 "") "-" with
  | true =>
    simp only [hcd, if_true] at h ⊢
    match hm : pySplit (pyStrip ((pySplit ((pySplit part "風速").getD 1 "") "級").headD "")) "-" with
    | [] => rw [hm] at h; simp at h
    | [a] => rw [hm] at h; simp at h
    | a :: b :: rest =>
      rw [hm] at h
      simp only [List.getD_cons_succ, List.getD_cons_zero]
      cases hpi : pyInt? b with
      | none =>
        simp only [hpi, Except.ok.injEq] at h
        subst h
        simp only [hpi, updField]
        simp
      | some n =>
        simp only [hpi, Except.ok.injEq] at h
        subst h
        simp only [hpi, updField]
        simp
  | false =>
    simp only [hcd, Bool.false_eq_true, if_false] at h ⊢
    cases hsp : ((((pySplit ((pySplit part "風速").getD 1 "") "級").headD "").data.filter
        Char.isDigit).isEmpty) with
    | true =>
      simp only [hsp, if_true, Except.ok.injEq] at h
      subst h
      simp only [hsp, if_true, updField]
      simp
    | false =>
      simp only [hsp, Bool.false_eq_true, if_false, Except.ok.injEq] at h
      subst h
      simp only [hsp, Bool.false_eq_true, if_false, updField]
      simp

lemma rainBranch_fields (parts : List String) (d : WeatherInfo) (part : String) :
    (rainBranch parts d part).rainProb =
      some (pyStrip ((pySplit part "降雨機率").getD 1 "")) ∧
    (rainBranch parts d part).comfort =
      (if 3 < parts.length then some (pyStrip (parts.getD 3 "")) else d.comfort) ∧
    (rainBranch parts d part).windSpeed = d.windSpeed ∧
    (rainBranch parts d part).windDirection = d.windDirection := by
  unfold rainBranch
  by_cases hl : 3 < parts.length
  · simp [hl]
  · simp [hl]

lemma tempBranch_fields (d : WeatherInfo) (part : String) :
    (tempBranch d part).rainProb = d.rainProb ∧
    (tempBranch d part).comfort = d.comfort ∧
    (tempBranch d part).windSpeed = d.windSpeed ∧
    (tempBranch d part).windDirection = d.windDirection := by
  unfold tempBranch
  cases hct : pyContains ((pySplit ((pySplit part "溫度攝氏").getD 1 "") "度").headD "") "至" with
  | true =>
    simp only [hct, if_true]
    match pySplit ((pySplit ((pySplit part "溫度攝氏").getD 1 "") "度").headD "") "至" with
    | [] => simp
    | [mn] => simp
    | [mn, mx] =>
      cases hf1 : pyFloat? (pyStrip mn) with
      | none => simp [hf1]
      | some mnv =>
        cases hf2 : pyFloat? (pyStrip mx) with
        | none => simp [hf1, hf2]
        | some mxv => simp [hf1, hf2]
    | mn :: mx :: c :: rest => simp
  | false =>
    simp only [hct, Bool.false_eq_true, if_false]
    cases hf : pyFloat? (pyStrip ((pySplit ((pySplit part "溫度攝氏").getD 1 "") "度").headD "")) with
    | none => simp [hf]
    | some v => simp [hf]

lemma humidityBranch_fields (d : WeatherInfo) (part : String) :
    (humidityBranch d part).rainProb = d.rainProb ∧
    (humidityBranch d part).comfort = d.comfort ∧
    (humidityBranch d part).windSpeed = d.windSpeed ∧
    (humidityBranch d part).windDirection = d.windDirection := by
  simp only [humidityBranch]
  split <;> simp

lemma initInfo_fields (parts : List String) :
    (initInfo parts).rainProb = none ∧ (initInfo parts).comfort = none ∧
    (initInfo parts).windSpeed = none ∧ (initInfo parts).windDirection = none := by
  unfold initInfo
  split <;> simp

lemma applyComfortFallback_of_rain (parts : List String) (d : WeatherInfo)
    (h : d.rainProb ≠ none) : applyComfortFallback parts d = d := by
  unfold applyComfortFallback
  rw [if_neg]
  intro hc
  exact h hc.1

lemma applyComfortFallback_of_no_rain (parts : List String) (d : WeatherInfo)
    (h : d.rainProb = none) (hl : 2 < parts.length) :
    (applyComfortFallback parts d).comfort = some (pyStrip (parts.getD 2 "")) := by
  unfold applyComfortFallback
  rw [if_pos ⟨h, hl⟩]

lemma applyComfortFallback_wind (parts : List String) (d : WeatherInfo) :
    (applyComfortFallback parts d).windSpeed = d.windSpeed ∧
    (applyComfortFallback parts d).windDirection = d.windDirection := by
  unfold applyComfortFallback
  split <;> simp

lemma bool_eq_false_of_ne_true {b : Bool} (h : ¬ b = true) : b = false := by
  cases b
  · rfl
  · exact absurd rfl h

lemma parseClause_ok_of_not_abort (parts : List String) (d : WeatherInfo) (part : String)
    (h : clauseAborts part = false) : ∃ d', parseClause parts d part = .ok d' := by
  unfold parseClause
  by_cases hpe : part = ""
  · rw [if_pos hpe]; exact ⟨_, rfl⟩
  rw [if_neg hpe]
  by_cases hr : pyContains part "降雨機率" = true
  · rw [if_pos hr]; exact ⟨_, rfl⟩
  rw [if_neg hr]
  by_cases ht : pyContains part "溫度攝氏" = true
  · rw [if_pos ht]; exact ⟨_, rfl⟩
  rw [if_neg ht]
  by_cases hw : (pyContains part "風" && pyContains part "風速") = true
  · rw [if_pos hw]
    apply windBranch_ok_of_not_aborts
    unfold clauseAborts isWindClause at h
    rw [bool_eq_false_of_ne_true hr, bool_eq_false_of_ne_true ht, hw] at h
    simpa using h
  rw [if_neg hw]
  by_cases hh : pyContains part "相對濕度" = true
  · rw [if_pos hh]; exact ⟨_, rfl⟩
  rw [if_neg hh]
  exact ⟨_, rfl⟩

lemma parseClause_error_of_abort (parts : List String) (d : WeatherInfo) (part : String)
    (h : clauseAborts part = true) : parseClause parts d part = .error () := by
  unfold clauseAborts at h
  have hiw : isWindClause part = true := by
    cases hb : isWindClause part
    · rw [hb] at h; simp at h
    · rfl
  have ha : windAborts part = true := by
    rw [hiw] at h
    simpa using h
  unfold isWindClause at hiw
  have hw : (pyContains part "風" && pyContains part "風速") = true := by
    cases hb : (pyContains part "風" && pyContains part "風速")
    · rw [hb] at hiw; simp at hiw
    · rfl
  have hr : ¬ pyContains part "降雨機率" = true := by
    intro hb; rw [hb] at hiw; simp at hiw
  have ht : ¬ pyContains part "溫度攝氏" = true := by
    intro hb; rw [hb] at hiw; simp at hiw
  have hpe : part ≠ "" := by
    intro he
    rw [he] at hw
    rw [pyContains_empty] at hw
    simp at hw
  unfold parseClause
  rw [if_neg hpe, if_neg hr, if_neg ht, if_pos hw]
  exact windBranch_error_of_aborts d part ha

lemma parseClause_effect (parts : List String) (d : WeatherInfo) (part : String)
    (d' : WeatherInfo) (h : parseClause parts d part = .ok d') :
    (if pyContains part "降雨機率" = true then
      (∃ pr, d'.rainProb = some pr) ∧
      d'.comfort = (if 3 < parts.length then some (pyStrip (parts.getD 3 "")) else d.comfort)
    else d'.rainProb = d.rainProb ∧ d'.comfort = d.comfort) ∧
    (if isWindClause part = true then
      d'.windSpeed = updField (windSpeedOf part) d.windSpeed ∧
      d'.windDirection = updField (windDirectionOf part) d.windDirection
    else d'.windSpeed = d.windSpeed ∧ d'.windDirection = d.windDirection) := by
  unfold parseClause at h
  by_cases hpe : part = ""
  · rw [if_pos hpe] at h
    simp only [Except.ok.injEq] at h
    subst h
    subst hpe
    constructor
    · rw [if_neg (by rw [pyContains_empty]; simp)]
      exact ⟨rfl, rfl⟩
    · rw [if_neg (by rw [show isWindClause "" = false from rfl]; simp)]
      exact ⟨rfl, rfl⟩
  rw [if_neg hpe] at h
  by_cases hr : pyContains part "降雨機率" = true
  · rw [if_pos hr] at h
    simp only [Except.ok.injEq] at h
    subst h
    obtain ⟨h1, h2, h3, h4⟩ := rainBranch_fields parts d part
    have hiw : isWindClause part = false := by
      unfold isWindClause
      rw [hr]
      rfl
    constructor
    · rw [if_pos hr]
      exact ⟨⟨_, h1⟩, h2⟩
    · rw [if_neg (by simp [hiw])]
      exact ⟨h3, h4⟩
  rw [if_neg hr] at h
  by_cases ht : pyContains part "溫度攝氏" = true
  · rw [if_pos ht] at h
    simp only [Except.ok.injEq] at h
    subst h
    obtain ⟨h1, h2, h3, h4⟩ := tempBranch_fields d part
    have hiw : isWindClause part = false := by
      unfold isWindClause
      rw [ht]
      simp
    constructor
    · rw [if_neg hr]
      exact ⟨h1, h2⟩
    · rw [if_neg (by simp [hiw])]
      exact ⟨h3, h4⟩
  rw [if_neg ht] at h
  by_cases hw : (pyContains part "風" && pyContains part "風速") = true
  · rw [if_pos hw] at h
    unfold windBranch at h
    obtain ⟨s1, s2, s3, s4⟩ := windSpeedStep_fields (windDirStep d part) part d' h
    obtain ⟨t1, t2, t3, t4⟩ := windDirStep_fields d part
    have hiw : isWindClause part = true := by
      unfold isWindClause
      rw [bool_eq_false_of_ne_true hr, bool_eq_false_of_ne_true ht, hw]
      rfl
    constructor
    · rw [if_neg hr]
      exact ⟨s3.trans t3, s4.trans t4⟩
    · rw [if_pos hiw]
      constructor
      · rw [s1, t2]
      · rw [s2, t1]
  rw [if_neg hw] at h
  have hiw : isWindClause part = false := by
    unfold isWindClause
    rw [bool_eq_false_of_ne_true hw]
    simp
  by_cases hh : pyContains part "相對濕度" = true
  · rw [if_pos hh] at h
    simp only [Except.ok.injEq] at h
    subst h
    obtain ⟨h1, h2, h3, h4⟩ := humidityBranch_fields d part
    constructor
    · rw [if_neg hr]
      exact ⟨h1, h2⟩
    · rw [if_neg (by simp [hiw])]
      exact ⟨h3, h4⟩
  · rw [if_neg hh] at h
    simp only [Except.ok.injEq] at h
    subst h
    constructor
    · rw [if_neg hr]
      exact ⟨rfl, rfl⟩
    · rw [if_neg (by simp [hiw])]
      exact ⟨rfl, rfl⟩

lemma list_foldlM_nil {m : Type → Type} [Monad m] {α β : Type}
    (f : β → α → m β) (b : β) : List.foldlM f b [] = pure b := rfl

lemma list_foldlM_cons {m : Type → Type} [Monad m] {α β : Type}
    (f : β → α → m β) (b : β) (a : α) (l : List α) :
    List.foldlM f b (a :: l) = f b a >>= fun b' => List.foldlM f b' l := rfl

lemma except_bind_ok {ε α β : Type} (a : α) (k : α → Except ε β) :
    ((Except.ok a : Except ε α) >>= k) = k a := rfl

lemma except_bind_error {ε α β : Type} (e : ε) (k : α → Except ε β) :
    ((Except.error e : Except ε α) >>= k) = .error e := rfl

lemma foldlM_ok_of_no_abort (parts0 : List String) :
    ∀ (l : List String) (d : WeatherInfo), (∀ q ∈ l, clauseAborts q = false) →
    ∃ d', l.foldlM (parseClause parts0) d = .ok d' := by
  intro l
  induction l with
  | nil => intro d _; exact ⟨d, rfl⟩
  | cons q l' ih =>
    intro d hq
    obtain ⟨d1, hd1⟩ := parseClause_ok_of_not_abort parts0 d q (hq q (by simp))
    obtain ⟨d', hd'⟩ := ih d1 (fun p hp => hq p (by simp [hp]))
    refine ⟨d', ?_⟩
    rw [list_foldlM_cons, hd1, except_bind_ok]
    exact hd'

lemma foldlM_error_of_abort (parts0 : List String) :
    ∀ (l : List String) (d : WeatherInfo), (∃ q ∈ l, clauseAborts q = true) →
    l.foldlM (parseClause parts0) d = .error () := by
  intro l
  induction l with
  | nil => intro d h; simp at h
  | cons q l' ih =>
    intro d hex
    rw [list_foldlM_cons]
    cases hq : clauseAborts q with
    | true =>
      rw [parseClause_error_of_abort parts0 d q hq, except_bind_error]
    | false =>
      obtain ⟨d1, hd1⟩ := parseClause_ok_of_not_abort parts0 d q hq
      rw [hd1, except_bind_ok]
      apply ih d1
      obtain ⟨q0, hq0, ha⟩ := hex
      rcases List.mem_cons.mp hq0 with he | hm
      · subst he
        rw [hq] at ha
        simp at ha
      · exact ⟨q0, hm, ha⟩

lemma foldlM_comfort_preserved (parts0 : List String) (hlen : 3 < parts0.length) :
    ∀ (l : List String) (d d' : WeatherInfo),
    l.foldlM (parseClause parts0) d = .ok d' →
    d.comfort = some (pyStrip (parts0.getD 3 "")) → d.rainProb ≠ none →
    d'.comfort = some (pyStrip (parts0.getD 3 "")) ∧ d'.rainProb ≠ none := by
  intro l
  induction l with
  | nil =>
    intro d d' h hc hr
    rw [list_foldlM_nil] at h
    cases h
    exact ⟨hc, hr⟩
  | cons q l' ih =>
    intro d d' h hc hr
    rw [list_foldlM_cons] at h
    cases hq : parseClause parts0 d q with
    | error e =>
      rw [hq, except_bind_error] at h
      cases h
    | ok d1 =>
      rw [hq, except_bind_ok] at h
      obtain ⟨heR, _⟩ := parseClause_effect parts0 d q d1 hq
      by_cases hrq : pyContains q "降雨機率" = true
      · rw [if_pos hrq] at heR
        obtain ⟨⟨pr, hpr⟩, hcf⟩ := heR
        rw [if_pos hlen] at hcf
        exact ih d1 d' h hcf (by rw [hpr]; simp)
      · rw [if_neg hrq] at heR
        exact ih d1 d' h (heR.2.trans hc) (by rw [heR.1]; exact hr)

lemma foldlM_rain_sets (parts0 : List String) (hlen : 3 < parts0.length) :
    ∀ (l : List String) (d d' : WeatherInfo),
    l.foldlM (parseClause parts0) d = .ok d' →
    (∃ q ∈ l, pyContains q "降雨機率" = true) →
    d'.comfort = some (pyStrip (parts0.getD 3 "")) ∧ d'.rainProb ≠ none := by
  intro l
  induction l with
  | nil => intro d d' _ h; simp at h
  | cons q l' ih =>
    intro d d' h hex
    rw [list_foldlM_cons] at h
    cases hq : parseClause parts0 d q with
    | error e =>
      rw [hq, except_bind_error] at h
      cases h
    | ok d1 =>
      rw [hq, except_bind_ok] at h
      obtain ⟨heR, _⟩ := parseClause_effect parts0 d q d1 hq
      by_cases hrq : pyContains q "降雨機率" = true
      · rw [if_pos hrq] at heR
        obtain ⟨⟨pr, hpr⟩, hcf⟩ := heR
        rw [if_pos hlen] at hcf
        exact foldlM_comfort_preserved parts0 hlen l' d1 d' h hcf (by rw [hpr]; simp)
      · rw [if_neg hrq] at heR
        apply ih d1 d' h
        obtain ⟨q0, hq0, ha⟩ := hex
        rcases List.mem_cons.mp hq0 with he | hm
        · subst he; exact absurd ha hrq
        · exact ⟨q0, hm, ha⟩

lemma foldlM_no_rain (parts0 : List String) :
    ∀ (l : List String) (d d' : WeatherInfo),
    l.foldlM (parseClause parts0) d = .ok d' →
    (∀ q ∈ l, pyContains q "降雨機率" = false) →
    d'.rainProb = d.rainProb ∧ d'.comfort = d.comfort := by
  intro l
  induction l with
  | nil =>
    intro d d' h _
    rw [list_foldlM_nil] at h
    cases h
    exact ⟨rfl, rfl⟩
  | cons q l' ih =>
    intro d d' h hno
    rw [list_foldlM_cons] at h
    cases hq : parseClause parts0 d q with
    | error e =>
      rw [hq, except_bind_error] at h
      cases h
    | ok d1 =>
      rw [hq, except_bind_ok] at h
      obtain ⟨heR, _⟩ := parseClause_effect parts0 d q d1 hq
      rw [if_neg (by simp [hno q (by simp)])] at heR
      obtain ⟨ih1, ih2⟩ := ih d1 d' h (fun p hp => hno p (by simp [hp]))
      exact ⟨ih1.trans heR.1, ih2.trans heR.2⟩

lemma foldlM_wind (parts0 : List String) (p : String) :
    ∀ (l : List String) (d d' : WeatherInfo),
    l.foldlM (parseClause parts0) d = .ok d' →
    (∀ q ∈ l, isWindClause q = true → q = p) →
    ((∀ q ∈ l, isWindClause q = false) →
      d'.windSpeed = d.windSpeed ∧ d'.windDirection = d.windDirection) ∧
    ((∃ q ∈ l, isWindClause q = true) →
      d'.windSpeed = updField (windSpeedOf p) d.windSpeed ∧
      d'.windDirection = updField (windDirectionOf p) d.windDirection) := by
  intro l
  induction l with
  | nil =>
    intro d d' h _
    rw [list_foldlM_nil] at h
    cases h
    exact ⟨fun _ => ⟨rfl, rfl⟩, fun hex => by simp at hex⟩
  | cons q l' ih =>
    intro d d' h huniq
    rw [list_foldlM_cons] at h
    cases hq : parseClause parts0 d q with
    | error e =>
      rw [hq, except_bind_error] at h
      cases h
    | ok d1 =>
      rw [hq, except_bind_ok] at h
      obtain ⟨_, heW⟩ := parseClause_effect parts0 d q d1 hq
      have ihl := ih d1 d' h (fun r hr hw => huniq r (by simp [hr]) hw)
      constructor
      · intro hall
        rw [if_neg (by simp [hall q (by simp)])] at heW
        obtain ⟨i1, i2⟩ := ihl.1 (fun r hr => hall r (by simp [hr]))
        exact ⟨i1.trans heW.1, i2.trans heW.2⟩
      · intro hex
        cases hwq : isWindClause q with
        | true =>
          have hqp : q = p := huniq q (by simp) hwq
          subst hqp
          rw [if_pos hwq] at heW
          by_cases hex' : ∃ r ∈ l', isWindClause r = true
          · obtain ⟨j1, j2⟩ := ihl.2 hex'
            rw [heW.1, updField_idem] at j1
            rw [heW.2, updField_idem] at j2
            exact ⟨j1, j2⟩
          · have hall : ∀ r ∈ l', isWindClause r = false := by
              intro r hr
              cases hb : isWindClause r
              · rfl
              · exact absurd ⟨r, hr, hb⟩ hex'
            obtain ⟨j1, j2⟩ := ihl.1 hall
            exact ⟨j1.trans heW.1, j2.trans heW.2⟩
        | false =>
          rw [if_neg (by simp [hwq])] at heW
          have hex'' : ∃ r ∈ l', isWindClause r = true := by
            obtain ⟨q0, hq0, hw0⟩ := hex
            rcases List.mem_cons.mp hq0 with he | hm
            · subst he; rw [hwq] at hw0; simp at hw0
            · exact ⟨q0, hm, hw0⟩
          obtain ⟨j1, j2⟩ := ihl.2 hex''
          rw [heW.1] at j1
          rw [heW.2] at j2
          exact ⟨j1, j2⟩

/-- Claim C5 (amended): provided no clause of the description triggers the
uncaught wind-range error (which discards the whole parse — see C8), the
comfort field follows the positional convention: with a rain-probability
clause present and more than 3 clauses, comfort is the trimmed 4th clause
(index 3); with no rain-probability clause and more than 2 clauses, comfort
is the trimmed 3rd clause (index 2). -/
theorem parse_weather_comfort_positional (s : String)
    (habort : ∀ q ∈ pySplit s "。", clauseAborts q = false) :
    ((∃ q ∈ pySplit s "。", pyContains q "降雨機率" = true) →
      3 < (pySplit s "。").length →
      (parse_weather_description s).comfort =
        some (pyStrip ((pySplit s "。").getD 3 ""))) ∧
    ((∀ q ∈ pySplit s "。", pyContains q "降雨機率" = false) →
      2 < (pySplit s "。").length →
      (parse_weather_description s).comfort =
        some (pyStrip ((pySplit s "。").getD 2 ""))) := by
  obtain ⟨d, hd⟩ := foldlM_ok_of_no_abort (pySplit s "。") (pySplit s "。")
    (initInfo (pySplit s "。")) habort
  have hparse : parse_weather_description s = applyComfortFallback (pySplit s "。") d := by
    simp only [parse_weather_description, hd]
  constructor
  · intro hex hlen
    obtain ⟨hcf, hrp⟩ := foldlM_rain_sets (pySplit s "。") hlen (pySplit s "。")
      (initInfo (pySplit s "。")) d hd hex
    rw [hparse, applyComfortFallback_of_rain _ _ hrp]
    exact hcf
  · intro hno hlen
    obtain ⟨hrp, _⟩ := foldlM_no_rain (pySplit s "。") (pySplit s "。")
      (initInfo (pySplit s "。")) d hd hno
    have hinit := initInfo_fields (pySplit s "。")
    rw [hparse]
    exact applyComfortFallback_of_no_rain _ _ (hrp.trans hinit.1) hlen

/-- Witness for `parse_weather_comfort_positional` on a four-clause
description with a rain-probability clause. -/
theorem parse_weather_comfort_positional_witness :
    (∀ q ∈ pySplit "多雲。降雨機率20%。悶熱。體感舒適" "。", clauseAborts q = false) ∧
    (parse_weather_description "多雲。降雨機率20%。悶熱。體感舒適").comfort =
      some (pyStrip ((pySplit "多雲。降雨機率20%。悶熱。體感舒適" "。").getD 3 "")) :=
  ⟨by decide,
    (parse_weather_comfort_positional "多雲。降雨機率20%。悶熱。體感舒適"
      (by decide)).1 (by decide) (by decide)⟩

/-- Counterexample to claim C5 as stated: a description with a
rain-probability clause and 4 clauses whose third clause hits the uncaught
wind-range error — the whole parse collapses to the empty dict, so the
comfort field is not the trimmed 4th clause. -/
theorem parse_weather_comfort_counterexample :
    (∃ q ∈ pySplit "有雨。降雨機率70%。東南風風速2級-強。悶熱" "。",
      pyContains q "降雨機率" = true) ∧
    3 < (pySplit "有雨。降雨機率70%。東南風風速2級-強。悶熱" "。").length ∧
    (parse_weather_description "有雨。降雨機率70%。東南風風速2級-強。悶熱").comfort ≠
      some (pyStrip ((pySplit "有雨。降雨機率70%。東南風風速2級-強。悶熱" "。").getD 3 "")) :=
  ⟨by decide, by decide, by decide⟩

/-- Claim C7 (amended): for a description none of whose clauses abort, with
a unique wind clause `p`, `windDirection` is the trimmed text before the
first `風` when non-empty (the field stays absent when `p` begins with
`風`), and `windSpeed` is: when `-` occurs in the text after `風速`, `int`
of the piece after the first `-` of the text before the first `級` (absent
when that conversion fails); otherwise the integer formed by *all* digit
characters of that text — not just the leading run — absent when there is
none. -/
theorem parse_weather_wind_fields (s p : String)
    (hmem : p ∈ pySplit s "。")
    (hwc : isWindClause p = true)
    (huniq : ∀ q ∈ pySplit s "。", isWindClause q = true → q = p)
    (habort : ∀ q ∈ pySplit s "。", clauseAborts q = false) :
    (parse_weather_description s).windDirection = windDirectionOf p ∧
    (parse_weather_description s).windSpeed = windSpeedOf p := by
  obtain ⟨d, hd⟩ := foldlM_ok_of_no_abort (pySplit s "。") (pySplit s "。")
    (initInfo (pySplit s "。")) habort
  have hparse : parse_weather_description s = applyComfortFallback (pySplit s "。") d := by
    simp only [parse_weather_description, hd]
  have hfold := (foldlM_wind (pySplit s "。") p (pySplit s "。")
    (initInfo (pySplit s "。")) d hd huniq).2 ⟨p, hmem, hwc⟩
  have hinit := initInfo_fields (pySplit s "。")
  have hfb := applyComfortFallback_wind (pySplit s "。") d
  constructor
  · rw [hparse, hfb.2, hfold.2, hinit.2.2.2, updField_none]
  · rw [hparse, hfb.1, hfold.1, hinit.2.2.1, updField_none]

/-- Witness for `parse_weather_wind_fields` on a two-clause description
with the wind clause `東北風風速3-4級`. -/
theorem parse_weather_wind_fields_witness :
    (parse_weather_description "晴。東北風風速3-4級").windDirection =
      windDirectionOf "東北風風速3-4級" ∧
    (parse_weather_description "晴。東北風風速3-4級").windSpeed =
      windSpeedOf "東北風風速3-4級" :=
  parse_weather_wind_fields "晴。東北風風速3-4級" "東北風風速3-4級"
    (by decide) (by decide) (by decide) (by decide)

/-- Counterexample to claim C7 as stated: in the clause `東北風風速1至2級`
the wind-speed level text is `1至2`, a single level whose leading digit run
is `1`; the code instead concatenates all digit characters and reports wind
speed 12. -/
theorem parse_weather_wind_counterexample :
    ((pySplit ((pySplit "東北風風速1至2級" "風速").getD 1 "") "級").headD "") = "1至2" ∧
    ("1至2".data.takeWhile Char.isDigit) = ['1'] ∧
    (parse_weather_description "東北風風速1至2級").windSpeed = some 12 ∧
    (parse_weather_description "東北風風速1至2級").windSpeed ≠ some 1 :=
  ⟨by decide, by decide, by decide, by decide⟩

/-- Claim C8 (amended): `parse_weather_description` never raises — the
outer handler turns any uncaught clause error into the empty dict.  But
when some clause triggers the uncaught wind-range error, the *entire*
result is the empty dict: fields captured from other clauses are discarded,
not preserved.  Only the caught `ValueError`/`TypeError` conversion
failures are isolated per clause, as the concrete conjunct shows: an
unparsable temperature leaves the sibling clause's humidity present. -/
theorem parse_weather_abort_behaviour :
    (∀ s : String, (∃ q ∈ pySplit s "。", clauseAborts q = true) →
      parse_weather_description s = {}) ∧
    ((parse_weather_description "晴。溫度攝氏abc度。相對濕度70至90%").minTemp = none ∧
      (parse_weather_description "晴。溫度攝氏abc度。相對濕度70至90%").humidity =
        some "90%") := by
  constructor
  · intro s hex
    have herr := foldlM_error_of_abort (pySplit s "。") (pySplit s "。")
      (initInfo (pySplit s "。")) hex
    simp only [parse_weather_description, herr]
  · exact ⟨by decide, by decide⟩

/-- Witness for `parse_weather_abort_behaviour` at a concrete poisoned
description. -/
theorem parse_weather_abort_behaviour_witness :
    parse_weather_description "多雲。東北風風速3級-強。相對濕度70至90%" = {} :=
  parse_weather_abort_behaviour.1 "多雲。東北風風速3級-強。相對濕度70至90%" (by decide)

/-- Counterexample to claim C8's per-clause isolation as stated: the wind
clause `東北風風速3級-強` alone fails to parse, yet the humidity captured
from the well-formed sibling clause is lost — the whole mapping is empty.
Without the poisoned clause the humidity field is present. -/
theorem parse_weather_isolation_counterexample :
    clauseAborts "東北風風速3級-強" = true ∧
    parse_weather_description "多雲。東北風風速3級-強。相對濕度70至90%" = {} ∧
    (parse_weather_description "多雲。相對濕度70至90%").humidity = some "90%" :=
  ⟨by decide, by decide, by decide⟩
